import Mathlib

/-!
Verification of the session lifecycle and partner-matching engine of the
AutoChat coworking backend (src/backend/server.py), as a shallow embedding.

The system of record is the session collection; we model it as a list of
session documents in natural (insertion) order.  `find_one` returns the
first document matching an id filter, `update_first` applies a `$set`-style
update to the first matching document (the semantics of `update_one`).
Timestamps are epoch seconds as `Int`.  HTTP error outcomes are modelled by
`ApiError`: 404 "Session not found" is `NotFound`, 403 is `Forbidden`,
400 "Session already has a partner" is `Conflict`, and
400 "Cannot join your own session" is `InvalidOperation`, following the
spec's error taxonomy for the engine.
-/

namespace AutoChat

/-- `SessionFeedback` pydantic model: an `int` rating (the `1-5` range is a
comment only, not enforced) and an optional comment. -/
structure SessionFeedback where
  rating : Int
  comment : Option String
deriving DecidableEq, Repr

/-- The feedback mapping stored under the session's `feedback` key: the only
keys ever written are `"host"` and `"partner"`, so we model it with one
optional entry per role. -/
structure FeedbackMap where
  host : Option SessionFeedback
  partner : Option SessionFeedback
deriving DecidableEq, Repr

/-- `SessionStatus` enum from the source. -/
inductive SessionStatus where
  | scheduled
  | in_progress
  | completed
  | cancelled
deriving DecidableEq, Repr

/-- The `Session` pydantic model / persisted document shape. -/
structure Session where
  id : String
  host_id : String
  partner_id : Option String := none
  start_time : Int
  end_time : Int
  title : Option String := some "Coworking Session"
  description : Option String := none
  room_url : Option String := none
  status : SessionStatus := .scheduled
  created_at : Int
  feedback : Option FeedbackMap := none
deriving DecidableEq, Repr

/-- `SessionCreate` request body (title defaults upstream in pydantic). -/
structure SessionCreate where
  start_time : Int
  end_time : Int
  title : Option String := some "Coworking Session"
  description : Option String := none
deriving DecidableEq, Repr

/-- Error outcomes of the engine's endpoints. -/
inductive ApiError where
  | NotFound
  | Forbidden
  | Conflict
  | InvalidOperation
deriving DecidableEq, Repr

deriving instance DecidableEq for Except

/-- The session collection, in natural order. -/
abbrev Store := List Session

/-- `db.sessions.find_one({"id": sid})`: first document with the given id. -/
def find_one (store : Store) (sid : String) : Option Session :=
  match store with
  | [] => none
  | s :: rest => if s.id == sid then some s else find_one rest sid

/-- `db.sessions.update_one({"id": sid}, {"$set": ...})`: apply the update to
the first document with the given id, leaving everything else unchanged. -/
def update_first (store : Store) (sid : String) (f : Session → Session) : Store :=
  match store with
  | [] => []
  | s :: rest => if s.id == sid then f s :: rest else s :: update_first rest sid f

/-- `create_session`: build a new session with the caller as host and insert
it.  `fresh_id` stands for the generated uuid and `now` for
`datetime.utcnow()`.  No validation of the timestamps is performed. -/
def create_session (store : Store) (host_id : String) (inp : SessionCreate)
    (fresh_id : String) (now : Int) : Session × Store :=
  let s : Session :=
    { id := fresh_id
      host_id := host_id
      partner_id := none
      start_time := inp.start_time
      end_time := inp.end_time
      title := inp.title
      description := inp.description
      room_url := none
      status := .scheduled
      created_at := now
      feedback := none }
  (s, store ++ [s])

/-- `get_user_sessions`: `find({"$or": [{"host_id": me}, {"partner_id": me}]})
.to_list(100)` — the sessions where the caller is host or partner, truncated
to the first 100, with the store returned unchanged (read-only). -/
def get_user_sessions (store : Store) (caller : String) :
    List Session × Store :=
  ((store.filter (fun s => s.host_id == caller || s.partner_id == some caller)).take 100,
   store)

/-- The deterministic Daily.co room name `f"coworking-{session_id}"`. -/
def roomName (sid : String) : String := "coworking-" ++ sid

/-- The expiry value `join_session` computes for the room:
`int((session_obj.end_time.timestamp() - datetime.utcnow().timestamp()) + 3600)`. -/
def roomExpiry (end_time now : Int) : Int := end_time - now + 3600

/-- The read-and-precondition phase of `join_session` (lines 263-286):
look the session up, then check "already has a partner", then
"cannot join your own session", in that order. -/
def join_check (store : Store) (sid caller : String) : Except ApiError Session :=
  match find_one store sid with
  | none => .error .NotFound
  | some s =>
    if s.partner_id.isSome then .error .Conflict
    else if s.host_id == caller then .error .InvalidOperation
    else .ok s

/-- Python truthiness of line 289's `not session_obj.room_url`: true when the
room url is absent or the empty string. -/
def room_url_falsy (r : Option String) : Bool :=
  match r with
  | none => true
  | some u => u == ""

/-- The provisioning phase of `join_session` (lines 288-316): only when the
session has no room url (in the Python-truthiness sense: `None` or `""`) and
`DAILY_API_KEY` is configured, call the provider with the deterministic name
and the computed expiry; a provider success installs the returned url, any
failure (exception or non-200) leaves `room_url` as it was. -/
def provisionRoom (s : Session) (sid : String) (now : Int)
    (apiKeyConfigured : Bool) (provider : String → Int → Option String) :
    Option String :=
  if room_url_falsy s.room_url && apiKeyConfigured then
    match provider (roomName sid) (roomExpiry s.end_time now) with
    | some url => some url
    | none => s.room_url
  else s.room_url

/-- The commit phase of `join_session` (lines 319-325): an `update_one`
filtered ONLY on the session id, `$set`-ing `partner_id` and `room_url`
unconditionally on the matched document. -/
def join_commit (store : Store) (sid caller : String) (room : Option String) :
    Store :=
  update_first store sid
    (fun t => { t with partner_id := some caller, room_url := room })

/-- `join_session`: check preconditions, provision a room if possible, commit,
then re-read and return the refreshed session. -/
def join_session (store : Store) (sid caller : String) (now : Int)
    (apiKeyConfigured : Bool) (provider : String → Int → Option String) :
    Except ApiError Session × Store :=
  match join_check store sid caller with
  | .error e => (.error e, store)
  | .ok s =>
    let room := provisionRoom s sid now apiKeyConfigured provider
    let store' := join_commit store sid caller room
    match find_one store' sid with
    | some s' => (.ok s', store')
    | none => (.error .NotFound, store')

/-- The mapping `submit_feedback` writes back (lines 384-390): start from the
session's feedback mapping (an empty one if missing), pick the caller's role
(`host` if `caller == host_id`, else `partner`), and overwrite that role's
entry with the submitted feedback. -/
def upsert_role (s : Session) (caller : String) (fb : SessionFeedback) :
    FeedbackMap :=
  let m := s.feedback.getD { host := none, partner := none }
  if s.host_id == caller then { m with host := some fb }
  else { m with partner := some fb }

/-- `submit_feedback` (lines 363-399): look the session up (`NotFound`),
check the caller is host or partner (`Forbidden`), overwrite the caller's
role entry in the (possibly missing) feedback mapping, `$set` the whole
mapping back, and return the refreshed session. -/
def submit_feedback (store : Store) (sid caller : String)
    (fb : SessionFeedback) : Except ApiError Session × Store :=
  match find_one store sid with
  | none => (.error .NotFound, store)
  | some s =>
    if !(s.host_id == caller) && !(s.partner_id == some caller) then
      (.error .Forbidden, store)
    else
      let m' := upsert_role s caller fb
      let store' := update_first store sid (fun t => { t with feedback := some m' })
      match find_one store' sid with
      | some s' => (.ok s', store')
      | none => (.error .NotFound, store')

/-- The entry stored for a role (`true` = host, `false` = partner) in a
session's feedback mapping. -/
def feedback_entry (s : Session) (role_host : Bool) : Option SessionFeedback :=
  match s.feedback with
  | none => none
  | some m => if role_host then m.host else m.partner

/-! ## Demo inputs -/

/-- An open demo session: host `"A"`, no partner, no room. -/
def demoOpen : Session :=
  { id := "s1", host_id := "A", start_time := 1000, end_time := 2000,
    created_at := 0 }

/-- A matched demo session: host `"A"`, partner `"B"`. -/
def demoMatched : Session :=
  { demoOpen with partner_id := some "B" }

/-- A demo session with a realistic epoch `end_time`. -/
def demoLate : Session :=
  { id := "s1", host_id := "A", start_time := 900000, end_time := 1000000,
    created_at := 0 }

/-- A minimal session hosted by `"A"` with a given id. -/
def hostedByA (sid : String) : Session :=
  { id := sid, host_id := "A", start_time := 0, end_time := 1, created_at := 0 }

/-- 101 sessions hosted by `"A"`, with ids `"0"` … `"100"`. -/
def bigStore : Store := (List.range 101).map (fun i => hostedByA (toString i))

/-! ## Basic lemmas about the store primitives -/

theorem find_one_update_first (store : Store) (sid : String)
    (f : Session → Session) (hf : ∀ t, (f t).id = t.id) :
    find_one (update_first store sid f) sid = (find_one store sid).map f := by
  induction store with
  | nil => rfl
  | cons s rest ih =>
      by_cases h : (s.id == sid) = true
      · simp [update_first, find_one, h, hf]
      · simp only [Bool.not_eq_true] at h
        simp [update_first, find_one, h, ih]

theorem join_check_ok {store : Store} {sid caller : String} {s : Session}
    (h : join_check store sid caller = .ok s) :
    find_one store sid = some s ∧ s.partner_id = none ∧
      (s.host_id == caller) = false := by
  unfold join_check at h
  cases hf : find_one store sid with
  | none => simp [hf] at h
  | some t =>
      simp only [hf] at h
      by_cases hp : t.partner_id.isSome = true
      · simp [hp] at h
      · simp only [Bool.not_eq_true] at hp
        by_cases hh : (t.host_id == caller) = true
        · simp [hp, hh] at h
        · simp only [Bool.not_eq_true] at hh
          simp only [hp, hh, Bool.false_eq_true, if_false, Except.ok.injEq] at h
          subst h
          exact ⟨rfl, Option.not_isSome_iff_eq_none.mp (by simp [hp]), hh⟩

theorem participant_check {s : Session} {caller : String}
    (hpart : s.host_id = caller ∨ s.partner_id = some caller) :
    (!(s.host_id == caller) && !(s.partner_id == some caller)) = false := by
  rcases hpart with h | h <;> simp [h]

theorem submit_feedback_eq (store : Store) (sid caller : String)
    (fb : SessionFeedback) (s : Session)
    (hfind : find_one store sid = some s)
    (hcheck : (!(s.host_id == caller) && !(s.partner_id == some caller)) = false) :
    submit_feedback store sid caller fb
      = (.ok { s with feedback := some (upsert_role s caller fb) },
         update_first store sid
           (fun t => { t with feedback := some (upsert_role s caller fb) })) := by
  have hupd : find_one (update_first store sid
        (fun t => { t with feedback := some (upsert_role s caller fb) })) sid
      = some { s with feedback := some (upsert_role s caller fb) } := by
    rw [find_one_update_first store sid
        (fun t => { t with feedback := some (upsert_role s caller fb) })
        (fun t => rfl), hfind]
    rfl
  simp only [submit_feedback, hfind, hcheck, Bool.false_eq_true, if_false, hupd]

theorem submit_feedback_fst (store : Store) (sid caller : String)
    (fb : SessionFeedback) (s : Session)
    (hfind : find_one store sid = some s)
    (hcheck : (!(s.host_id == caller) && !(s.partner_id == some caller)) = false) :
    (submit_feedback store sid caller fb).1
      = .ok { s with feedback := some (upsert_role s caller fb) } := by
  rw [submit_feedback_eq store sid caller fb s hfind hcheck]

theorem submit_feedback_snd (store : Store) (sid caller : String)
    (fb : SessionFeedback) (s : Session)
    (hfind : find_one store sid = some s)
    (hcheck : (!(s.host_id == caller) && !(s.partner_id == some caller)) = false) :
    (submit_feedback store sid caller fb).2
      = update_first store sid
          (fun t => { t with feedback := some (upsert_role s caller fb) }) := by
  rw [submit_feedback_eq store sid caller fb s hfind hcheck]

theorem submit_feedback_find (store : Store) (sid caller : String)
    (fb : SessionFeedback) (s : Session)
    (hfind : find_one store sid = some s)
    (hcheck : (!(s.host_id == caller) && !(s.partner_id == some caller)) = false) :
    find_one (submit_feedback store sid caller fb).2 sid
      = some { s with feedback := some (upsert_role s caller fb) } := by
  rw [submit_feedback_snd store sid caller fb s hfind hcheck,
      find_one_update_first store sid
        (fun t => { t with feedback := some (upsert_role s caller fb) })
        (fun t => rfl), hfind]
  rfl

theorem upsert_role_same (s : Session) (caller : String) (fb : SessionFeedback) :
    feedback_entry { s with feedback := some (upsert_role s caller fb) }
      (s.host_id == caller) = some fb := by
  unfold feedback_entry upsert_role
  cases hrole : s.host_id == caller <;> simp [hrole]

theorem upsert_role_other (s : Session) (caller : String) (fb : SessionFeedback) :
    feedback_entry { s with feedback := some (upsert_role s caller fb) }
      (!(s.host_id == caller))
      = feedback_entry s (!(s.host_id == caller)) := by
  unfold feedback_entry upsert_role
  cases hrole : s.host_id == caller <;> cases hsf : s.feedback <;> simp [hrole, hsf]

/-! ## Claim theorems -/

/-- C1: the claim says the commit step is a single conditional write that sets
`partner_id` only if it is still absent, so the loser of a race gets
`Conflict` and never overwrites the winner.  The code's commit
(`update_one({"id": sid}, {"$set": ...})`) is filtered only on the id: in the
racing interleaving both callers `"B"` and `"C"` pass the precondition read on
the same snapshot, `"B"` commits, and then `"C"`'s commit silently overwrites
`partner_id` from `"B"` to `"C"` — even though a re-check at commit time would
have reported `Conflict`. -/
theorem join_commit_unconditional_overwrite :
    join_check [demoOpen] "s1" "B" = .ok demoOpen ∧
    join_check [demoOpen] "s1" "C" = .ok demoOpen ∧
    (find_one (join_commit [demoOpen] "s1" "B" none) "s1").map Session.partner_id
        = some (some "B") ∧
    (find_one (join_commit (join_commit [demoOpen] "s1" "B" none) "s1" "C" none)
        "s1").map Session.partner_id = some (some "C") ∧
    join_check (join_commit [demoOpen] "s1" "B" none) "s1" "C"
        = .error .Conflict := by
  decide

/-- C2 counterexample: the claim says a host joining their own session always
gets `InvalidOperation`, regardless of match state.  On a session whose
`partner_id` is already set, the "already has a partner" check fires first and
the host gets `Conflict` instead. -/
theorem host_join_matched_not_invalid_operation :
    (join_session [demoMatched] "s1" "A" 0 false (fun _ _ => none)).1
        = .error .Conflict ∧
    (join_session [demoMatched] "s1" "A" 0 false (fun _ _ => none)).1
        ≠ .error .InvalidOperation := by
  decide

/-- C2 amended: a host can never join (or become partner of) their own
session, but the failure is `InvalidOperation` only when `partner_id` is
absent; when `partner_id` is already set, the earlier check yields `Conflict`.
In both cases the store is untouched. -/
theorem host_never_joins_own_session (store : Store) (sid caller : String)
    (now : Int) (key : Bool) (prov : String → Int → Option String) (s : Session)
    (hfind : find_one store sid = some s) (hhost : s.host_id = caller) :
    (join_session store sid caller now key prov).1
        = .error (if s.partner_id.isSome then .Conflict else .InvalidOperation) ∧
    (join_session store sid caller now key prov).2 = store := by
  unfold join_session join_check
  rw [hfind]
  by_cases hp : s.partner_id.isSome = true
  · simp [hp]
  · simp only [Bool.not_eq_true] at hp
    simp [hp, hhost]

/-- C2 amended, witness. -/
theorem host_never_joins_own_session_witness :
    (join_session [demoOpen] "s1" "A" 0 false (fun _ _ => none)).1
        = .error (if demoOpen.partner_id.isSome then ApiError.Conflict
                  else ApiError.InvalidOperation) ∧
    (join_session [demoOpen] "s1" "A" 0 false (fun _ _ => none)).2
        = [demoOpen] :=
  host_never_joins_own_session [demoOpen] "s1" "A" 0 false (fun _ _ => none)
    demoOpen (by decide) (by decide)

/-- C3: join checks its preconditions in order with distinct failures: an
unknown id yields `NotFound`; otherwise a set `partner_id` yields `Conflict`
(for any partner, including the caller joining twice); otherwise a caller
equal to the host yields `InvalidOperation`. -/
theorem join_preconditions_in_order :
    (∀ (store : Store) (sid caller : String) (now : Int) (key : Bool)
        (prov : String → Int → Option String),
      find_one store sid = none →
      (join_session store sid caller now key prov).1 = .error .NotFound) ∧
    (∀ (store : Store) (sid caller : String) (now : Int) (key : Bool)
        (prov : String → Int → Option String) (s : Session) (p : String),
      find_one store sid = some s → s.partner_id = some p →
      (join_session store sid caller now key prov).1 = .error .Conflict) ∧
    (∀ (store : Store) (sid caller : String) (now : Int) (key : Bool)
        (prov : String → Int → Option String) (s : Session),
      find_one store sid = some s → s.partner_id = none →
      caller = s.host_id →
      (join_session store sid caller now key prov).1
          = .error .InvalidOperation) := by
  refine ⟨?_, ?_, ?_⟩
  · intro store sid caller now key prov h
    simp [join_session, join_check, h]
  · intro store sid caller now key prov s p h hp
    simp [join_session, join_check, h, hp]
  · intro store sid caller now key prov s h hp hc
    simp [join_session, join_check, h, hp, hc]

/-- C3, witness: the three failures at concrete stores, including the
already-joined partner `"B"` trying again and getting `Conflict`. -/
theorem join_preconditions_in_order_witness :
    (join_session [] "s1" "B" 0 false (fun _ _ => none)).1
        = .error .NotFound ∧
    (join_session [demoMatched] "s1" "B" 0 false (fun _ _ => none)).1
        = .error .Conflict ∧
    (join_session [demoOpen] "s1" "A" 0 false (fun _ _ => none)).1
        = .error .InvalidOperation :=
  ⟨join_preconditions_in_order.1 [] "s1" "B" 0 false (fun _ _ => none)
      (by decide),
   join_preconditions_in_order.2.1 [demoMatched] "s1" "B" 0 false
      (fun _ _ => none) demoMatched "B" (by decide) (by decide),
   join_preconditions_in_order.2.2 [demoOpen] "s1" "A" 0 false
      (fun _ _ => none) demoOpen (by decide) (by decide) (by decide)⟩

/-- C4: the claim says the expiry handed to the room provider is an epoch
timestamp at least `end_time + 3600`.  The code computes
`end_time - now + 3600` (a duration from now, not an epoch instant), so for
every join at any positive `now` the value passed to the provider is strictly
below `end_time + 3600`: a provider that accepts exactly the claimed-valid
expiries is never given one. -/
theorem join_expiry_below_end_plus_hour (s : Session) (sid : String)
    (now : Int) (hnow : 0 < now) (hroom : s.room_url = none) :
    provisionRoom s sid now true
        (fun _ e => if s.end_time + 3600 ≤ e then some "late-enough" else none)
      = none := by
  have hlt : ¬ (s.end_time + 3600 ≤ roomExpiry s.end_time now) := by
    unfold roomExpiry; omega
  simp [provisionRoom, room_url_falsy, hroom, hlt]

/-- C4, witness: a session ending at epoch 1000000 joined at epoch 500000. -/
theorem join_expiry_below_end_plus_hour_witness :
    provisionRoom demoLate "s1" 500000 true
        (fun _ e => if demoLate.end_time + 3600 ≤ e then some "late-enough"
                    else none)
      = none :=
  join_expiry_below_end_plus_hour demoLate "s1" 500000 (by decide) (by decide)

/-- C5 counterexample: the claim says create rejects `end_time ≤ start_time`.
Create performs no such validation: with `start_time = 5, end_time = 3` it
returns the session and stores it, violating the claimed invariant. -/
theorem create_accepts_end_before_start :
    ((create_session [] "A" { start_time := 5, end_time := 3 } "s1" 0).1.end_time ≤
        (create_session [] "A" { start_time := 5, end_time := 3 } "s1" 0).1.start_time) ∧
    ((create_session [] "A" { start_time := 5, end_time := 3 } "s1" 0).1 ∈
        (create_session [] "A" { start_time := 5, end_time := 3 } "s1" 0).2) := by
  decide

/-- C5 amended: create validates nothing about the timestamps — for every
input it returns and stores a session carrying the given `start_time` and
`end_time` verbatim (even when `end_time ≤ start_time`), with `partner_id`
absent and `status = scheduled`; the `end_time > start_time` invariant is not
enforced by the engine. -/
theorem create_session_no_time_validation (store : Store) (host : String)
    (inp : SessionCreate) (fid : String) (now : Int) :
    (create_session store host inp fid now).1.start_time = inp.start_time ∧
    (create_session store host inp fid now).1.end_time = inp.end_time ∧
    (create_session store host inp fid now).1.partner_id = none ∧
    (create_session store host inp fid now).1.status = .scheduled ∧
    (create_session store host inp fid now).2
        = store ++ [(create_session store host inp fid now).1] :=
  ⟨rfl, rfl, rfl, rfl, rfl⟩

/-- C6 counterexample: the claim says list-owned returns every stored session
in which the caller is host or partner.  The listing is truncated by
`.to_list(100)`: in a store of 101 sessions all hosted by `"A"`, the 101st
(`id = "100"`) is hosted by the caller yet missing from the result. -/
theorem get_user_sessions_drops_101st :
    hostedByA "100" ∈ bigStore ∧ (hostedByA "100").host_id = "A" ∧
    hostedByA "100" ∉ (get_user_sessions bigStore "A").1 := by
  decide

/-- C6 amended: list-owned returns only sessions in which the caller is host
or partner, returns every such session whenever at most 100 stored sessions
match (beyond that only the first 100 in store order are returned), and
performs no writes: the store state is unchanged by the call. -/
theorem get_user_sessions_spec (store : Store) (caller : String) :
    (∀ s ∈ (get_user_sessions store caller).1,
        s.host_id = caller ∨ s.partner_id = some caller) ∧
    ((store.filter
        (fun s => s.host_id == caller || s.partner_id == some caller)).length ≤ 100 →
      ∀ s ∈ store, s.host_id = caller ∨ s.partner_id = some caller →
        s ∈ (get_user_sessions store caller).1) ∧
    (get_user_sessions store caller).2 = store := by
  refine ⟨?_, ?_, rfl⟩
  · intro s hs
    have hs' : s ∈ store.filter
        (fun s => s.host_id == caller || s.partner_id == some caller) :=
      List.mem_of_mem_take hs
    have hp := List.of_mem_filter hs'
    simpa using hp
  · intro hlen s hs hmatch
    have hmem : s ∈ store.filter
        (fun s => s.host_id == caller || s.partner_id == some caller) :=
      List.mem_filter_of_mem hs (by simpa using hmatch)
    simpa [get_user_sessions, List.take_of_length_le hlen] using hmem

/-- C6 amended, witness. -/
theorem get_user_sessions_spec_witness :
    demoOpen ∈ (get_user_sessions [demoOpen] "A").1 ∧
    (get_user_sessions [demoOpen] "A").2 = [demoOpen] :=
  ⟨(get_user_sessions_spec [demoOpen] "A").2.1 (by decide) demoOpen (by decide)
      (Or.inl rfl),
   (get_user_sessions_spec [demoOpen] "A").2.2⟩

/-- C7: on an open session (no partner, no room) with a caller other than the
host, join completes even when the provider capability is unconfigured
(`key = false`) or the provider call fails or returns non-success
(`prov ... = none`): the returned session has `partner_id = caller` and
`room_url` absent, and no provisioning error is surfaced. -/
theorem join_completes_without_provider (store : Store) (sid caller : String)
    (now : Int) (key : Bool) (prov : String → Int → Option String) (s : Session)
    (hfind : find_one store sid = some s)
    (hpart : s.partner_id = none)
    (hroom : s.room_url = none)
    (hhost : s.host_id ≠ caller)
    (hfail : key = false ∨ prov (roomName sid) (roomExpiry s.end_time now) = none) :
    ∃ s', (join_session store sid caller now key prov).1 = .ok s' ∧
      s'.partner_id = some caller ∧ s'.room_url = none := by
  have hcheck : join_check store sid caller = .ok s := by
    unfold join_check
    rw [hfind]
    simp [hpart, hhost]
  have hroomval : provisionRoom s sid now key prov = none := by
    unfold provisionRoom
    rcases hfail with hk | hp
    · simp [hk, hroom, room_url_falsy]
    · simp [hroom, hp, room_url_falsy]
  have hupd : find_one (join_commit store sid caller none) sid
      = some { s with partner_id := some caller, room_url := none } := by
    unfold join_commit
    rw [find_one_update_first store sid
        (fun t => { t with partner_id := some caller, room_url := none })
        (fun t => rfl), hfind]
    rfl
  refine ⟨{ s with partner_id := some caller, room_url := none }, ?_, rfl, rfl⟩
  simp only [join_session, hcheck, hroomval, hupd]

/-- C7, witness: joining an open session with no provider configured. -/
theorem join_completes_without_provider_witness :
    ∃ s', (join_session [demoOpen] "s1" "B" 0 false (fun _ _ => none)).1
        = .ok s' ∧ s'.partner_id = some "B" ∧ s'.room_url = none :=
  join_completes_without_provider [demoOpen] "s1" "B" 0 false (fun _ _ => none)
    demoOpen (by decide) rfl rfl (by decide) (Or.inl rfl)

/-- C8: the claim says `room_url`, once non-absent, holds the same value in
every later reachable state.  The same racing interleaving that breaks C1
also breaks this: both callers pass the precondition read on the open
snapshot; `"B"`'s provider call succeeds and `"B"`'s commit installs
`room_url = some "u"`; `"C"`'s provider call on the stale snapshot fails
(e.g. the deterministic room name already exists), so `"C"`'s unconditional
commit (`update_one` filtered only on the id, lines 319-325) `$set`s
`room_url` back to `none`, erasing the installed url. -/
theorem room_url_overwritten_by_racing_commit :
    join_check [demoOpen] "s1" "B" = .ok demoOpen ∧
    join_check [demoOpen] "s1" "C" = .ok demoOpen ∧
    provisionRoom demoOpen "s1" 0 true (fun _ _ => some "u") = some "u" ∧
    provisionRoom demoOpen "s1" 0 true (fun _ _ => none) = none ∧
    (find_one (join_commit [demoOpen] "s1" "B" (some "u")) "s1").map
        Session.room_url = some (some "u") ∧
    (find_one (join_commit (join_commit [demoOpen] "s1" "B" (some "u"))
        "s1" "C" none) "s1").map Session.room_url = some none := by
  decide

/-- C9: feedback is an idempotent per-role upsert.  For a participant caller
(role `host` iff `caller = host_id`), submitting `fb1` and then `fb2` as the
same caller leaves that role's entry holding exactly the latest feedback
`fb2`, persisted in the store, while the other role's entry is exactly what
it was before both submissions. -/
theorem feedback_upsert_idempotent (store : Store) (sid caller : String)
    (fb1 fb2 : SessionFeedback) (s : Session)
    (hfind : find_one store sid = some s)
    (hpart : s.host_id = caller ∨ s.partner_id = some caller) :
    ∃ s2,
      (submit_feedback (submit_feedback store sid caller fb1).2 sid caller fb2).1
          = .ok s2 ∧
      find_one
        (submit_feedback (submit_feedback store sid caller fb1).2 sid caller fb2).2
        sid = some s2 ∧
      feedback_entry s2 (s.host_id == caller) = some fb2 ∧
      feedback_entry s2 (!(s.host_id == caller))
          = feedback_entry s (!(s.host_id == caller)) := by
  have hcheck := participant_check hpart
  have hfind1 := submit_feedback_find store sid caller fb1 s hfind hcheck
  refine ⟨{ { s with feedback := some (upsert_role s caller fb1) } with
      feedback := some (upsert_role
        { s with feedback := some (upsert_role s caller fb1) } caller fb2) },
    ?_, ?_, ?_, ?_⟩
  · exact submit_feedback_fst _ sid caller fb2
      { s with feedback := some (upsert_role s caller fb1) } hfind1 hcheck
  · exact submit_feedback_find _ sid caller fb2
      { s with feedback := some (upsert_role s caller fb1) } hfind1 hcheck
  · exact upsert_role_same
      { s with feedback := some (upsert_role s caller fb1) } caller fb2
  · exact (upsert_role_other
      { s with feedback := some (upsert_role s caller fb1) } caller fb2).trans
      (upsert_role_other s caller fb1)

/-- C9, witness: partner `"B"` submits rating 3 and then rating 5 with a
comment; the partner entry holds the latest values and the host entry is
still absent. -/
theorem feedback_upsert_idempotent_witness :
    ∃ s2,
      (submit_feedback (submit_feedback [demoMatched] "s1" "B"
          ⟨3, none⟩).2 "s1" "B" ⟨5, some "great"⟩).1 = .ok s2 ∧
      find_one
        (submit_feedback (submit_feedback [demoMatched] "s1" "B"
          ⟨3, none⟩).2 "s1" "B" ⟨5, some "great"⟩).2 "s1" = some s2 ∧
      feedback_entry s2 (demoMatched.host_id == "B") = some ⟨5, some "great"⟩ ∧
      feedback_entry s2 (!(demoMatched.host_id == "B"))
          = feedback_entry demoMatched (!(demoMatched.host_id == "B")) :=
  feedback_upsert_idempotent [demoMatched] "s1" "B" ⟨3, none⟩ ⟨5, some "great"⟩
    demoMatched (by decide) (Or.inr rfl)

/-- C10: feedback submission validates nothing about the rating: for every
existing session, every participant caller and every integer rating —
including values outside 1-5 — the submission succeeds (no `InvalidArgument`
is even in the engine's error taxonomy) and the rating is persisted verbatim
in the caller's role entry. -/
theorem feedback_accepts_any_rating (store : Store) (sid caller : String)
    (rating : Int) (comment : Option String) (s : Session)
    (hfind : find_one store sid = some s)
    (hpart : s.host_id = caller ∨ s.partner_id = some caller) :
    ∃ s', (submit_feedback store sid caller ⟨rating, comment⟩).1 = .ok s' ∧
      find_one (submit_feedback store sid caller ⟨rating, comment⟩).2 sid
          = some s' ∧
      feedback_entry s' (s.host_id == caller) = some ⟨rating, comment⟩ := by
  have hcheck := participant_check hpart
  exact ⟨{ s with feedback := some (upsert_role s caller ⟨rating, comment⟩) },
    submit_feedback_fst store sid caller ⟨rating, comment⟩ s hfind hcheck,
    submit_feedback_find store sid caller ⟨rating, comment⟩ s hfind hcheck,
    upsert_role_same s caller ⟨rating, comment⟩⟩

/-- C10, witness: host `"A"` submits the out-of-range rating `0`, which is
accepted and stored. -/
theorem feedback_accepts_any_rating_witness :
    ∃ s', (submit_feedback [demoMatched] "s1" "A" ⟨0, none⟩).1 = .ok s' ∧
      find_one (submit_feedback [demoMatched] "s1" "A" ⟨0, none⟩).2 "s1"
          = some s' ∧
      feedback_entry s' (demoMatched.host_id == "A") = some ⟨0, none⟩ :=
  feedback_accepts_any_rating [demoMatched] "s1" "A" 0 none demoMatched
    (by decide) (Or.inl rfl)

end AutoChat
